import Mathlib

/-!
Verification of the GeneratePdfEtdx converter core against its design
specification.  The Python sources are shallowly embedded: numeric values
manipulated as Python floats are modelled as rationals, the float square
root primitive is an uninterpreted function parameter, images are modelled
as a free term algebra recording the operations applied to them, and the
md5 digest plus Python number formatting are uninterpreted function
parameters constrained only where a property genuinely needs it.
-/

/-! ## CoordinateMapper, reverse direction (etdx_sizes.py,
`calculate_image_scale_and_position_exact`) -/

/-- Result record of the reverse-direction placement computation: the
dict with keys scale, center and crop returned by the Python function. -/
structure ScaleInfo where
  scale : ℚ
  center : ℚ × ℚ
  cropType : Nat
  cropRect : ℚ × ℚ × ℚ × ℚ
deriving DecidableEq

/-- The fit or fill mode argument of the placement computation. -/
inductive FitMode where
  | fit
  | fill
deriving DecidableEq

/-- Embedding of `calculate_image_scale_and_position_exact` from
etdx_sizes.py.  `fsqrt` stands for the float `** 0.5` primitive. -/
def calculate_image_scale_and_position_exact (fsqrt : ℚ → ℚ)
    (paper_size_px image_size_px : ℚ × ℚ) (mode : FitMode) : ScaleInfo :=
  let reference_paper : ℚ × ℚ := (1872, 2634)
  let reference_image : ℚ × ℚ := (1299, 1951)
  let reference_fit_scale : ℚ := 1.2501514
  let reference_fill_scale : ℚ := 1.29376137
  let get_scale_factor : ℚ × ℚ → ℚ × ℚ → ℚ → ℚ := fun paper image target_scale =>
    let paper_area := paper.1 * paper.2
    let image_area := image.1 * image.2
    let area_quot := paper_area / image_area
    target_scale / fsqrt area_quot
  let fit_calibration := get_scale_factor reference_paper reference_image reference_fit_scale
  let fill_calibration := get_scale_factor reference_paper reference_image reference_fill_scale
  let current_paper_area := paper_size_px.1 * paper_size_px.2
  let current_image_area := image_size_px.1 * image_size_px.2
  let current_area_quot := current_paper_area / current_image_area
  let scale :=
    match mode with
    | FitMode.fit => fsqrt current_area_quot * fit_calibration
    | FitMode.fill => fsqrt current_area_quot * fill_calibration
  { scale := scale
    center := (0, 0)
    cropType := 1
    cropRect := (0, 0, image_size_px.1, image_size_px.2) }

/-! ## UpscalePipeline factor snapping (core.py, `_preprocess_image_worker`
and `preprocess_image_with_upscale`) -/

/-- Embedding of the factor-snapping decision of core.py lines 344-352 and
702-712: `none` means the branch guarded by `scale_factor > 1.5` is not
taken (no upscale step), `some s` means the factor is snapped to `s`. -/
def snap_upscale_factor (scale_factor : ℚ) : Option ℚ :=
  if 1.5 < scale_factor then
    some (if scale_factor ≤ 2 then 2
          else if scale_factor ≤ 4 then 4
          else if scale_factor ≤ 8 then 8
          else 8)
  else none

/-- One photo job of a page: source raster pixel size and the target pixel
footprint computed from the placement. -/
structure PhotoJob where
  pid : Nat
  imgW : Nat
  imgH : Nat
  targetW : Nat
  targetH : Nat
deriving DecidableEq

/-- The required upscale factor `max(target_px_width / img.width,
target_px_height / img.height)` of core.py line 342 and 788. -/
def upscale_factor_of (p : PhotoJob) : ℚ :=
  max ((p.targetW : ℚ) / (p.imgW : ℚ)) ((p.targetH : ℚ) / (p.imgH : ℚ))

/-- The page-partition predicate of core.py lines 787-794: a photo goes to
the upscale set iff the source is smaller than the target in some
dimension and the required factor exceeds 1.5. -/
def photo_needs_upscale (p : PhotoJob) : Bool :=
  (decide (p.imgW < p.targetW) || decide (p.imgH < p.targetH))
    && decide ((1.5 : ℚ) < upscale_factor_of p)

/-- The upscale decision taken inside `_preprocess_image_worker`
(core.py lines 341-356): requested, not frozen, source smaller than the
target, and then the snapped factor. -/
def worker_upscale_step (upscale frozen : Bool) (p : PhotoJob) : Option ℚ :=
  if upscale && !frozen && (decide (p.imgW < p.targetW) || decide (p.imgH < p.targetH)) then
    snap_upscale_factor (upscale_factor_of p)
  else none

/-! ## ETDX page worker snapping (etdx_generator.py,
`_process_page_worker` lines 320-365) -/

/-- Embedding of the factor ladder of etdx_generator.py lines 323-330:
unlike the PDF direction there is no `> 1.5` guard, every scale is
snapped, and anything not above 2 snaps to 2. -/
def etdx_snap_scale_factor (scale : ℚ) : ℚ :=
  if scale ≤ 2 then 2
  else if scale ≤ 4 then 4
  else if scale ≤ 8 then 8
  else 8

/-- The upscaled raster size computed at etdx_generator.py lines 338-340
(`int(img.width * scale_factor)` truncates, which on nonnegative values is
the floor); the page image is unconditionally resized to this size at
line 365 before being written into the container. -/
def etdx_worker_upscaled_size (w h : Nat) (scale : ℚ) : ℤ × ℤ :=
  (⌊(w : ℚ) * etdx_snap_scale_factor scale⌋, ⌊(h : ℚ) * etdx_snap_scale_factor scale⌋)

/-! ## SizeCatalog (etdx_sizes.py) -/

/-- One entry of the closed ETDX_SIZES catalog. -/
structure EtdxSize where
  id : String
  label : String
  paperSizeId : String
  size : Nat × Nat
deriving DecidableEq

/-- The seven-entry catalog of etdx_sizes.py lines 2-10, in declaration
order. -/
def ETDX_SIZES : List EtdxSize :=
  [⟨"3.5x5", "3,5 x 5 pol. (89 x 127 mm)", "LB", (1332, 1912)⟩,
   ⟨"4x6", "4 x 6 pol. (102 x 152 mm)", "KG", (1512, 2272)⟩,
   ⟨"5x7", "5 x 7 pol. (127 x 178 mm)", "2L", (1872, 2634)⟩,
   ⟨"8x10", "8 x 10 pol. (203 x 254 mm)", "6G", (2952, 3712)⟩,
   ⟨"A4", "A4 (210 x 297 mm)", "A4", (3048, 4321)⟩,
   ⟨"Carta", "Carta (216 x 279 mm)", "LT", (3132, 4072)⟩,
   ⟨"Oficio", "Oficio (216 x 356 mm)", "LG", (3132, 5152)⟩]

/-- Python str.lower applied characterwise, as used by the id lookups. -/
def py_str_lower (s : String) : List Char := s.data.map Char.toLower

/-- Embedding of `get_etdx_size_by_id`: first catalog entry whose id
matches case-insensitively. -/
def get_etdx_size_by_id (size_id : String) : Option EtdxSize :=
  ETDX_SIZES.find? (fun s => py_str_lower s.id == py_str_lower size_id)

/-- One row of the mm-dimension table local to
`find_closest_etdx_size`. -/
structure MmEntry where
  sid : String
  w : ℚ
  h : ℚ
deriving DecidableEq

/-- The mm table of etdx_sizes.py lines 25-33, in scan order. -/
def mm_sizes : List MmEntry :=
  [⟨"3.5x5", 89, 127⟩,
   ⟨"4x6", 102, 152⟩,
   ⟨"5x7", 127, 178⟩,
   ⟨"8x10", 203, 254⟩,
   ⟨"A4", 210, 297⟩,
   ⟨"Carta", 216, 279⟩,
   ⟨"Oficio", 216, 356⟩]

/-- Python's builtin min with a key function over a running best: the
running best is replaced only on a strict key decrease, so the first
minimal element wins ties.  This is also the update rule of the explicit
fallback loop of `find_closest_etdx_size` (started from an infinite
`min_diff`, so the first element always becomes the initial best). -/
def min_by_first {α : Type} (key : α → ℚ) (b : α) : List α → α
  | [] => b
  | x :: xs => min_by_first key (if key x < key b then x else b) xs

/-- Python `min(l, key=key)` on a possibly empty list. -/
def py_min_by {α : Type} (key : α → ℚ) : List α → Option α
  | [] => none
  | x :: xs => some (min_by_first key x xs)

/-- The candidate filter of etdx_sizes.py line 37: the entry is large
enough in the given or the rotated orientation. -/
def mm_fits (width_mm height_mm : ℚ) (e : MmEntry) : Bool :=
  (decide (width_mm ≤ e.w) && decide (height_mm ≤ e.h))
    || (decide (width_mm ≤ e.h) && decide (height_mm ≤ e.w))

/-- Candidate list built by the first loop of `find_closest_etdx_size`,
in declaration order. -/
def mm_candidates (width_mm height_mm : ℚ) : List MmEntry :=
  mm_sizes.filter (mm_fits width_mm height_mm)

/-- Area key used by the `min` call of etdx_sizes.py line 41. -/
def mm_area (e : MmEntry) : ℚ := e.w * e.h

/-- Fallback distance of etdx_sizes.py lines 47-49:
min over both orientations of the sum of absolute differences. -/
def mm_fallback_diff (width_mm height_mm : ℚ) (e : MmEntry) : ℚ :=
  min (|width_mm - e.w| + |height_mm - e.h|) (|width_mm - e.h| + |height_mm - e.w|)

/-- Embedding of `find_closest_etdx_size`: smallest-area fitting entry if
one exists, otherwise the entry minimizing the fallback distance; the
chosen symbolic id is resolved through `get_etdx_size_by_id`. -/
def find_closest_etdx_size (width_mm height_mm : ℚ) : Option EtdxSize :=
  match py_min_by mm_area (mm_candidates width_mm height_mm) with
  | some best => get_etdx_size_by_id best.sid
  | none =>
    match py_min_by (mm_fallback_diff width_mm height_mm) mm_sizes with
    | some best => get_etdx_size_by_id best.sid
    | none => none

/-! ## CoordinateMapper, forward direction (core.py `get_paper_size`,
`convert_coordinates`, and the footprint computation shared by
`add_image_to_page` and the preprocessing workers) -/

/-- Paper-size table of core.py lines 404-412 (id, width mm, height mm),
in declaration order. -/
def core_mm_sizes : List (String × ℚ × ℚ) :=
  [("3.5x5", 89, 127),
   ("5x7", 127, 178),
   ("4x6", 102, 152),
   ("A4", 210, 297),
   ("8x10", 203, 254),
   ("Carta", 216, 279),
   ("Oficio", 216, 356)]

/-- Embedding of `get_paper_size`: mm dimensions converted to output
points via mm / 25.4 * dpi; an unknown id raises (modelled as none). -/
def get_paper_size (paper_size_id : String) (dpi : ℚ) : Option (ℚ × ℚ) :=
  match core_mm_sizes.find? (fun e => e.1 == paper_size_id) with
  | some e => some (e.2.1 / 25.4 * dpi, e.2.2 / 25.4 * dpi)
  | none => none

/-- Embedding of `convert_coordinates` (core.py lines 424-430): the photo
center in output points together with the axis scale factors; the
vertical axis is flipped. -/
def convert_coordinates (center : ℚ × ℚ) (scale : ℚ) (original_size : ℚ × ℚ)
    (json_page_size pdf_page_size : ℚ × ℚ) : ℚ × ℚ × ℚ × ℚ :=
  let scale_x := pdf_page_size.1 / json_page_size.1
  let scale_y := pdf_page_size.2 / json_page_size.2
  ((json_page_size.1 / 2 + center.1) * scale_x,
   (json_page_size.2 / 2 - center.2) * scale_y,
   scale_x, scale_y)

/-- The on-page footprint in points: `original_width * scale * scale_x`
by `original_height * scale * scale_y` (core.py lines 456-457 and the
same expressions in the workers). -/
def photo_footprint_pt (original_size : ℚ × ℚ) (scale : ℚ)
    (json_page_size pdf_page_size : ℚ × ℚ) : ℚ × ℚ :=
  (original_size.1 * scale * (pdf_page_size.1 / json_page_size.1),
   original_size.2 * scale * (pdf_page_size.2 / json_page_size.2))

/-! ## RenderOrchestrator: oversized-source recovery and page
partitioning (core.py `create_pdf`) -/

/-- Outcome of one document-generation attempt: success, the
decompression-bomb condition, or any other error. -/
inductive RenderOutcome (α : Type) where
  | ok : α → RenderOutcome α
  | bomb : RenderOutcome α
  | fail : RenderOutcome α
deriving DecidableEq

/-- Embedding of the DecompressionBombError handler of create_pdf
(core.py lines 866-871): on a bomb at a DPI other than 300, the whole
generation is rerun once at 300; a bomb at 300 is surfaced.  The
recursive rerun is unrolled, which is exact because the rerun executes at
DPI 300 where its own handler re-raises, so the rerun's outcome is
whatever `render 300` produces.  The second component records the DPIs
attempted, in order. -/
def create_pdf_with_retry {α : Type} (render : Nat → RenderOutcome α) (dpi : Nat) :
    RenderOutcome α × List Nat :=
  match render dpi with
  | RenderOutcome.bomb =>
    if dpi ≠ 300 then (render 300, [dpi, 300])
    else (RenderOutcome.bomb, [dpi])
  | r => (r, [dpi])

/-- The Pillow decoder's pixel-count guard, modelled at the interface the
module relies on: with a ceiling of `some m`, opening an image whose
pixel count exceeds twice the ceiling raises DecompressionBombError;
with the ceiling removed (`none`) the check is disabled and no image ever
raises it. -/
def image_open_check (limit : Option Nat) (pixels : Nat) : RenderOutcome Unit :=
  match limit with
  | none => RenderOutcome.ok ()
  | some m => if 2 * m < pixels then RenderOutcome.bomb else RenderOutcome.ok ()

/-- The module-level assignment `Image.MAX_IMAGE_PIXELS = None` at
core.py line 9. -/
def MAX_IMAGE_PIXELS : Option Nat := none

/-- A document-generation attempt abstracted to its image decodes: the
first decode that trips the pixel guard aborts the attempt with the bomb
outcome. -/
def render_pages_check (limit : Option Nat) : List Nat → RenderOutcome Unit
  | [] => RenderOutcome.ok ()
  | p :: ps =>
    match image_open_check limit p with
    | RenderOutcome.ok _ => render_pages_check limit ps
    | r => r

/-- The per-page partition loop of create_pdf (lines 768-794): photos
are appended in list order either to the no-upscale batch or to the
upscale batch. -/
def partition_photos (photos : List PhotoJob) : List PhotoJob × List PhotoJob :=
  photos.foldl
    (fun acc p =>
      if photo_needs_upscale p then (acc.1, acc.2 ++ [p]) else (acc.1 ++ [p], acc.2))
    ([], [])

/-- The order in which per-photo results are composited onto the page
canvas: `results = results_no_upscale + results_with_upscale`
(core.py line 825), each batch in submission order because both the pool
map and the sequential loops preserve it. -/
def page_composite_order (photos : List PhotoJob) : List PhotoJob :=
  (partition_photos photos).1 ++ (partition_photos photos).2

/-- Concrete render behavior for exercising the retry logic: the bomb
condition at 600 DPI, success elsewhere. -/
def c8_render : Nat → RenderOutcome Nat :=
  fun d => if d = 600 then RenderOutcome.bomb else RenderOutcome.ok 0

/-- Concrete photo whose source is smaller than its target footprint by
a factor of 10, so it lands in the upscale batch. -/
def c1_photo_upscale : PhotoJob := ⟨0, 10, 10, 100, 100⟩

/-- Concrete photo whose source already exceeds its target footprint, so
it lands in the no-upscale batch. -/
def c1_photo_plain : PhotoJob := ⟨1, 100, 100, 50, 50⟩

/-! ## CacheStore fingerprints (core.py `get_model_cache_hash`,
`get_final_cache_hash`) -/

/-- Python strings, modelled as their character lists. -/
abbrev PyStr := List Char

/-- The stat metadata string of core.py lines 204-205:
`f"{stat.st_size}_{stat.st_mtime}"`.  `fmt` stands for Python's number
formatting; the mtime is carried already formatted. -/
def stat_metadata (fmt : Nat → PyStr) (st_size : Nat) (st_mtime : PyStr) : PyStr :=
  fmt st_size ++ '_' :: st_mtime

/-- Embedding of `get_model_cache_hash` (core.py lines 200-209): the md5
digest of the underscore join of the path digest, the metadata digest and
the scale-factor digest.  `md5` stands for the md5 hex digest primitive.
The function's only inputs are the source path, its stat size and mtime,
and the scale factor; it has no process-local input. -/
def get_model_cache_hash (md5 : PyStr → PyStr) (fmt : Nat → PyStr)
    (img_path : PyStr) (st_size : Nat) (st_mtime : PyStr) (scale_factor : Nat) : PyStr :=
  md5 (md5 img_path ++ '_' :: md5 (stat_metadata fmt st_size st_mtime)
        ++ '_' :: md5 (fmt scale_factor))

/-- The target-size component string of core.py line 222:
`f"{target_size[0]}_{target_size[1]}"`. -/
def target_size_str (fmt : Nat → PyStr) (target_size : Nat × Nat) : PyStr :=
  fmt target_size.1 ++ '_' :: fmt target_size.2

/-- Embedding of `get_final_cache_hash` (core.py lines 214-224): like the
model hash but with the digest of the target-size string appended to the
joined digests. -/
def get_final_cache_hash (md5 : PyStr → PyStr) (fmt : Nat → PyStr)
    (img_path : PyStr) (st_size : Nat) (st_mtime : PyStr) (scale_factor : Nat)
    (target_size : Nat × Nat) : PyStr :=
  md5 (md5 img_path ++ '_' :: md5 (stat_metadata fmt st_size st_mtime)
        ++ '_' :: md5 (fmt scale_factor) ++ '_' :: md5 (target_size_str fmt target_size))

/-- Both cache fingerprints of one render job, model tier first. -/
def job_fingerprints (md5 : PyStr → PyStr) (fmt : Nat → PyStr)
    (img_path : PyStr) (st_size : Nat) (st_mtime : PyStr) (scale_factor : Nat)
    (target_size : Nat × Nat) : PyStr × PyStr :=
  (get_model_cache_hash md5 fmt img_path st_size st_mtime scale_factor,
   get_final_cache_hash md5 fmt img_path st_size st_mtime scale_factor target_size)

/-- Concrete injective, underscore-free number formatter standing in for
Python's number formatting in witnesses. -/
def fmt_unary (n : Nat) : PyStr := List.replicate n 'x'

/-! ## UpscalePipeline (core.py `upscale_realesrgan`, `upscale_simple`) -/

/-- Raster images as the term algebra of the operations the pipeline
applies: an opened source file, a Lanczos resize to an exact pixel size,
the plain Lanczos upscale of `upscale_simple` by an integer factor, and a
super-resolution result delivered by the backend. -/
inductive PImage where
  | src : String → PImage
  | resize : PImage → Nat × Nat → PImage
  | simpleUpscale : PImage → Nat → PImage
  | aiResult : String → PImage
deriving DecidableEq

/-- The two on-disk cache tiers as association lists keyed by
fingerprint; the most recent write shadows older ones, like a file
overwrite. -/
structure CacheState where
  modelCache : List (PyStr × PImage)
  finalCache : List (PyStr × PImage)
deriving DecidableEq

/-- Cache read: the payload of the most recently written entry with the
given fingerprint, if any. -/
def cache_lookup (entries : List (PyStr × PImage)) (k : PyStr) : Option PImage :=
  (entries.find? (fun e => decide (e.1 = k))).map Prod.snd

/-- Cache write (whole-file overwrite). -/
def cache_insert (entries : List (PyStr × PImage)) (k : PyStr) (v : PImage) :
    List (PyStr × PImage) :=
  (k, v) :: entries

/-- Cache entry eviction (`os.remove` of the entry file). -/
def cache_remove (entries : List (PyStr × PImage)) (k : PyStr) : List (PyStr × PImage) :=
  entries.filter (fun e => !decide (e.1 = k))

/-- The possible outcomes of one guarded super-resolution invocation:
a delivered result, the bounded-timeout expiry, an exception raised while
loading or running the model, or a delivered object failing the
width/height shape validation. -/
inductive AIOutcome where
  | ok : PImage → AIOutcome
  | timeout : AIOutcome
  | raisedError : AIOutcome
  | invalidResult : AIOutcome
deriving DecidableEq

/-- Embedding of `upscale_simple` (core.py lines 479-483): a plain
Lanczos resize by the given factor. -/
def upscale_simple (img : PImage) (scale : Nat) : PImage :=
  PImage.simpleUpscale img scale

/-- Embedding of `upscale_realesrgan` (core.py lines 485-607) as a
function of the cache state and the backend outcome: frozen or
unavailable deployments fall straight back to the plain upscale; then the
final tier is consulted, then the model tier (a model hit is resized to
the target and written to the final tier); otherwise the backend outcome
decides: timeout and raised errors return the plain upscale with no cache
write, a shape-invalid result additionally evicts the model-tier entry
and returns the plain upscale, and a delivered result is written to the
model tier, resized to the target and written to the final tier. -/
def upscale_realesrgan (md5 : PyStr → PyStr) (fmt : Nat → PyStr)
    (frozen realesrgan_available : Bool) (outcome : AIOutcome) (st : CacheState)
    (img : PImage) (scale : Nat) (img_path : Option PyStr) (st_size : Nat)
    (st_mtime : PyStr) (target_size : Option (Nat × Nat)) : PImage × CacheState :=
  if frozen then (upscale_simple img scale, st)
  else if !realesrgan_available then (upscale_simple img scale, st)
  else
    let final_cache_hash : Option PyStr :=
      match img_path, target_size with
      | some p, some ts => some (get_final_cache_hash md5 fmt p st_size st_mtime scale ts)
      | _, _ => none
    match final_cache_hash.bind (cache_lookup st.finalCache) with
    | some cached => (cached, st)
    | none =>
      let model_cache_hash : Option PyStr :=
        img_path.map (fun p => get_model_cache_hash md5 fmt p st_size st_mtime scale)
      match model_cache_hash.bind (cache_lookup st.modelCache) with
      | some cached =>
        match target_size with
        | some ts =>
          let resized := PImage.resize cached ts
          match final_cache_hash with
          | some fh =>
            (resized, { st with finalCache := cache_insert st.finalCache fh resized })
          | none => (resized, st)
        | none => (cached, st)
      | none =>
        match outcome with
        | AIOutcome.timeout => (upscale_simple img scale, st)
        | AIOutcome.raisedError => (upscale_simple img scale, st)
        | AIOutcome.invalidResult =>
          match model_cache_hash with
          | some mh =>
            (upscale_simple img scale,
             { st with modelCache := cache_remove st.modelCache mh })
          | none => (upscale_simple img scale, st)
        | AIOutcome.ok up =>
          let st1 :=
            match model_cache_hash with
            | some mh => { st with modelCache := cache_insert st.modelCache mh up }
            | none => st
          match target_size with
          | some ts =>
            let resized := PImage.resize up ts
            match final_cache_hash with
            | some fh =>
              (resized, { st1 with finalCache := cache_insert st1.finalCache fh resized })
            | none => (resized, st1)
          | none => (up, st1)

/-! ## Theorems -/

/-- Characterization of `min_by_first`: the returned element splits the
scanned list (running best first) into a strictly larger prefix and a not
smaller suffix, so it is the first element attaining the minimum key. -/
theorem min_by_first_split {α : Type} (key : α → ℚ) :
    ∀ (l : List α) (b : α), ∃ pre post,
      b :: l = pre ++ min_by_first key b l :: post
      ∧ (∀ x ∈ pre, key (min_by_first key b l) < key x)
      ∧ (∀ x ∈ post, key (min_by_first key b l) ≤ key x) := by
  intro l
  induction l with
  | nil =>
    intro b
    exact ⟨[], [], rfl, by simp, by simp⟩
  | cons x xs ih =>
    intro b
    by_cases h : key x < key b
    · have hm : min_by_first key b (x :: xs) = min_by_first key x xs := by
        simp [min_by_first, if_pos h]
      obtain ⟨pre, post, heq, hpre, hpost⟩ := ih x
      have hmx : key (min_by_first key x xs) ≤ key x := by
        have hx : x ∈ pre ∨ x = min_by_first key x xs ∨ x ∈ post := by
          have hx0 : x ∈ x :: xs := List.mem_cons_self _ _
          rw [heq] at hx0
          simpa [List.mem_append, List.mem_cons] using hx0
        rcases hx with hx | hx | hx
        · exact (hpre x hx).le
        · rw [← hx]
        · exact hpost x hx
      rw [hm]
      refine ⟨b :: pre, post, by simpa using heq, ?_, hpost⟩
      intro y hy
      rcases List.mem_cons.mp hy with rfl | hy
      · exact lt_of_le_of_lt hmx h
      · exact hpre y hy
    · have hm : min_by_first key b (x :: xs) = min_by_first key b xs := by
        simp [min_by_first, if_neg h]
      obtain ⟨pre, post, heq, hpre, hpost⟩ := ih b
      rw [hm]
      cases pre with
      | nil =>
        rw [List.nil_append] at heq
        injection heq with h1 h2
        refine ⟨[], x :: xs, by simp [← h1], by simp, ?_⟩
        intro y hy
        rcases List.mem_cons.mp hy with rfl | hy
        · rw [← h1]; exact not_lt.mp h
        · rw [h2] at hy; exact hpost y hy
      | cons p pre' =>
        rw [List.cons_append] at heq
        injection heq with h1 h2
        have hmb : key (min_by_first key b xs) < key b := by
          have hp := hpre p (List.mem_cons_self _ _)
          rw [← h1] at hp
          exact hp
        refine ⟨b :: x :: pre', post, ?_, ?_, hpost⟩
        · exact congrArg (fun l => b :: x :: l) h2
        · intro y hy
          rcases List.mem_cons.mp hy with rfl | hy
          · exact hmb
          rcases List.mem_cons.mp hy with rfl | hy
          · exact lt_of_lt_of_le hmb (not_lt.mp h)
          · exact hpre y (List.mem_cons_of_mem _ hy)

/-- C3: nearest-size lookup returns, among catalog entries large enough
for the input in either orientation, the one with smallest area (first in
declaration order on area ties); if no entry is large enough it returns
the entry minimizing the rotational absolute-difference distance (first
minimal entry scanned on ties); in particular (210, 297) resolves to id
A4 and (127, 89) to id 3.5x5. -/
theorem claim3_nearest_size :
    (∀ width_mm height_mm : ℚ, mm_candidates width_mm height_mm ≠ [] →
      ∃ pre post best, mm_candidates width_mm height_mm = pre ++ best :: post
        ∧ (∀ x ∈ pre, mm_area best < mm_area x)
        ∧ (∀ x ∈ post, mm_area best ≤ mm_area x)
        ∧ find_closest_etdx_size width_mm height_mm = get_etdx_size_by_id best.sid)
    ∧ (∀ width_mm height_mm : ℚ, mm_candidates width_mm height_mm = [] →
      ∃ pre post best, mm_sizes = pre ++ best :: post
        ∧ (∀ x ∈ pre,
            mm_fallback_diff width_mm height_mm best < mm_fallback_diff width_mm height_mm x)
        ∧ (∀ x ∈ post,
            mm_fallback_diff width_mm height_mm best ≤ mm_fallback_diff width_mm height_mm x)
        ∧ find_closest_etdx_size width_mm height_mm = get_etdx_size_by_id best.sid)
    ∧ find_closest_etdx_size 210 297
        = some ⟨"A4", "A4 (210 x 297 mm)", "A4", (3048, 4321)⟩
    ∧ find_closest_etdx_size 127 89
        = some ⟨"3.5x5", "3,5 x 5 pol. (89 x 127 mm)", "LB", (1332, 1912)⟩ := by
  refine ⟨?_, ?_, ?_, ?_⟩
  · intro w h hne
    cases hc : mm_candidates w h with
    | nil => exact absurd hc hne
    | cons c cs =>
      obtain ⟨pre, post, heq, hpre, hpost⟩ := min_by_first_split mm_area cs c
      refine ⟨pre, post, min_by_first mm_area c cs, heq, hpre, hpost, ?_⟩
      simp [find_closest_etdx_size, hc, py_min_by]
  · intro w h hc
    obtain ⟨pre, post, heq, hpre, hpost⟩ :=
      min_by_first_split (mm_fallback_diff w h)
        [⟨"4x6", 102, 152⟩, ⟨"5x7", 127, 178⟩, ⟨"8x10", 203, 254⟩,
         ⟨"A4", 210, 297⟩, ⟨"Carta", 216, 279⟩, ⟨"Oficio", 216, 356⟩]
        ⟨"3.5x5", 89, 127⟩
    refine ⟨pre, post, _, ?_, hpre, hpost, ?_⟩
    · exact heq
    · simp [find_closest_etdx_size, hc, py_min_by, mm_sizes]
  · norm_num [find_closest_etdx_size, mm_candidates, mm_sizes, mm_fits, py_min_by,
      min_by_first, mm_area, get_etdx_size_by_id, ETDX_SIZES, py_str_lower]
  · norm_num [find_closest_etdx_size, mm_candidates, mm_sizes, mm_fits, py_min_by,
      min_by_first, mm_area, get_etdx_size_by_id, ETDX_SIZES, py_str_lower]

/-- C3 witness: the fitting branch of the nearest-size statement applied
at the concrete input (210, 297), whose candidate list is nonempty. -/
theorem claim3_witness :
    ∃ pre post best, mm_candidates 210 297 = pre ++ best :: post
      ∧ (∀ x ∈ pre, mm_area best < mm_area x)
      ∧ (∀ x ∈ post, mm_area best ≤ mm_area x)
      ∧ find_closest_etdx_size 210 297 = get_etdx_size_by_id best.sid :=
  claim3_nearest_size.1 210 297 (by decide)

/-- C2: for every canvas size, image size and mode, the reverse-direction
placement computation returns
scale = sqrt((canvas.w * canvas.h) / (image.w * image.h)) * calibration
with calibration = refScale / sqrt((1872 * 2634) / (1299 * 1951)),
refScale = 1.2501514 for fit and 1.29376137 for fill, and always returns
placement center [0, 0] and a crop rectangle covering the full image. -/
theorem claim2_scale_formula (fsqrt : ℚ → ℚ) (canvas image : ℚ × ℚ) :
    (calculate_image_scale_and_position_exact fsqrt canvas image FitMode.fit).scale
      = fsqrt ((canvas.1 * canvas.2) / (image.1 * image.2))
        * (1.2501514 / fsqrt ((1872 * 2634) / (1299 * 1951)))
    ∧ (calculate_image_scale_and_position_exact fsqrt canvas image FitMode.fill).scale
      = fsqrt ((canvas.1 * canvas.2) / (image.1 * image.2))
        * (1.29376137 / fsqrt ((1872 * 2634) / (1299 * 1951)))
    ∧ (∀ mode, (calculate_image_scale_and_position_exact fsqrt canvas image mode).center
        = (0, 0))
    ∧ (∀ mode, (calculate_image_scale_and_position_exact fsqrt canvas image mode).cropType = 1)
    ∧ (∀ mode, (calculate_image_scale_and_position_exact fsqrt canvas image mode).cropRect
        = (0, 0, image.1, image.2)) := by
  refine ⟨rfl, rfl, ?_, ?_, ?_⟩ <;> (intro mode; cases mode <;> rfl)

/-- C4: in the upscale decision, a factor at most 1.5 yields no upscale
step; a larger factor is snapped upward to the least of the supported
tiers 2, 4, 8 that is at least the factor, and capped at 8 when the
requirement exceeds 8; in particular 1.2 yields no upscale and 1.6, 3, 5,
9 snap to 2, 4, 8, 8. -/
theorem claim4_factor_snapping :
    (∀ f : ℚ, f ≤ 1.5 → snap_upscale_factor f = none)
    ∧ (∀ f : ℚ, 1.5 < f → ∃ s, snap_upscale_factor f = some s
        ∧ (s = 2 ∨ s = 4 ∨ s = 8)
        ∧ (f ≤ 8 → f ≤ s ∧ ∀ t : ℚ, (t = 2 ∨ t = 4 ∨ t = 8) → f ≤ t → s ≤ t)
        ∧ (8 < f → s = 8))
    ∧ snap_upscale_factor 1.2 = none
    ∧ snap_upscale_factor 1.6 = some 2
    ∧ snap_upscale_factor 3 = some 4
    ∧ snap_upscale_factor 5 = some 8
    ∧ snap_upscale_factor 9 = some 8 := by
  refine ⟨?_, ?_, by norm_num [snap_upscale_factor], by norm_num [snap_upscale_factor],
    by norm_num [snap_upscale_factor], by norm_num [snap_upscale_factor],
    by norm_num [snap_upscale_factor]⟩
  · intro f hf
    simp [snap_upscale_factor, not_lt.mpr hf]
  · intro f hf
    rcases le_or_lt f 2 with h2 | h2
    · refine ⟨2, ?_, Or.inl rfl, fun _ => ⟨h2, ?_⟩, fun h8 => absurd (h2.trans (by norm_num)) (not_le.mpr h8)⟩
      · simp [snap_upscale_factor, hf, h2]
      · rintro t (rfl | rfl | rfl) _ <;> norm_num
    rcases le_or_lt f 4 with h4 | h4
    · refine ⟨4, ?_, Or.inr (Or.inl rfl), fun _ => ⟨h4, ?_⟩, fun h8 => absurd (h4.trans (by norm_num)) (not_le.mpr h8)⟩
      · simp [snap_upscale_factor, hf, not_le.mpr h2, h4]
      · rintro t (rfl | rfl | rfl) ht
        · exact absurd ht (not_le.mpr h2)
        · norm_num
        · norm_num
    rcases le_or_lt f 8 with h8 | h8
    · refine ⟨8, ?_, Or.inr (Or.inr rfl), fun _ => ⟨h8, ?_⟩, fun _ => rfl⟩
      · simp [snap_upscale_factor, hf, not_le.mpr h2, not_le.mpr h4, h8]
      · rintro t (rfl | rfl | rfl) ht
        · exact absurd ht (not_le.mpr h2)
        · exact absurd ht (not_le.mpr h4)
        · norm_num
    · refine ⟨8, ?_, Or.inr (Or.inr rfl), fun hle => absurd hle (not_le.mpr h8), fun _ => rfl⟩
      simp [snap_upscale_factor, hf, not_le.mpr h2, not_le.mpr h4, not_le.mpr h8]

/-- C4 witness: the general snapping statement applied at the concrete
factor 5. -/
theorem claim4_witness :
    (1.5 : ℚ) < 5 ∧ ∃ s, snap_upscale_factor 5 = some s
      ∧ (s = 2 ∨ s = 4 ∨ s = 8)
      ∧ ((5 : ℚ) ≤ 8 → (5 : ℚ) ≤ s ∧ ∀ t : ℚ, (t = 2 ∨ t = 4 ∨ t = 8) → (5 : ℚ) ≤ t → s ≤ t)
      ∧ ((8 : ℚ) < 5 → s = 8) :=
  ⟨by norm_num, claim4_factor_snapping.2.1 5 (by norm_num)⟩

/-- C10: the PDF-to-layout page worker snaps the computed fit scale with
no lower threshold (any scale not above 2 snaps to 2, including 1 and
below), the snapped factor is always one of 2, 4, 8 and at least 2, and
the page raster's upscaled size is at least twice the rendered size in
each dimension. -/
theorem claim10_etdx_snap :
    (∀ s : ℚ, 2 ≤ etdx_snap_scale_factor s
      ∧ (etdx_snap_scale_factor s = 2 ∨ etdx_snap_scale_factor s = 4
          ∨ etdx_snap_scale_factor s = 8))
    ∧ etdx_snap_scale_factor 1 = 2
    ∧ etdx_snap_scale_factor (1 / 2) = 2
    ∧ etdx_snap_scale_factor 0 = 2
    ∧ (∀ (w h : Nat) (s : ℚ),
        2 * (w : ℤ) ≤ (etdx_worker_upscaled_size w h s).1
        ∧ 2 * (h : ℤ) ≤ (etdx_worker_upscaled_size w h s).2) := by
  have hmain : ∀ s : ℚ, 2 ≤ etdx_snap_scale_factor s
      ∧ (etdx_snap_scale_factor s = 2 ∨ etdx_snap_scale_factor s = 4
          ∨ etdx_snap_scale_factor s = 8) := by
    intro s
    unfold etdx_snap_scale_factor
    split
    · exact ⟨le_refl _, Or.inl rfl⟩
    · split
      · exact ⟨by norm_num, Or.inr (Or.inl rfl)⟩
      · split
        · exact ⟨by norm_num, Or.inr (Or.inr rfl)⟩
        · exact ⟨by norm_num, Or.inr (Or.inr rfl)⟩
  have hbound : ∀ (n : Nat) (s : ℚ), 2 * (n : ℤ) ≤ ⌊(n : ℚ) * etdx_snap_scale_factor s⌋ := by
    intro n s
    rw [Int.le_floor]
    push_cast
    calc (2 : ℚ) * n = (n : ℚ) * 2 := by ring
    _ ≤ (n : ℚ) * etdx_snap_scale_factor s := by
        exact mul_le_mul_of_nonneg_left (hmain s).1 (by positivity)
  exact ⟨hmain, by norm_num [etdx_snap_scale_factor], by norm_num [etdx_snap_scale_factor],
    by norm_num [etdx_snap_scale_factor], fun w h s => ⟨hbound w s, hbound h s⟩⟩

/-- Helper: the partition fold of create_pdf splits the photo list into
the stable filters of its predicate. -/
theorem partition_photos_eq_filter (photos : List PhotoJob) :
    ∀ acc : List PhotoJob × List PhotoJob,
      photos.foldl
        (fun acc p =>
          if photo_needs_upscale p then (acc.1, acc.2 ++ [p]) else (acc.1 ++ [p], acc.2))
        acc
      = (acc.1 ++ photos.filter (fun p => !photo_needs_upscale p),
         acc.2 ++ photos.filter photo_needs_upscale) := by
  induction photos with
  | nil => intro acc; simp
  | cons p ps ih =>
    intro acc
    by_cases hp : photo_needs_upscale p = true
    · simp [List.foldl_cons, hp, ih, List.filter_cons]
    · simp only [Bool.not_eq_true] at hp
      simp [List.foldl_cons, hp, ih, List.filter_cons]

/-- C1 amended: with upscaling enabled, the per-photo results are
composited in partition order, namely all photos of the no-upscale set in
their original relative order followed by all photos of the upscale set
in their original relative order (a permutation of the page's photo
list); worker-pool completion order still cannot affect this because the
pool map returns results in submission order. -/
theorem claim1_amended (photos : List PhotoJob) :
    page_composite_order photos
      = photos.filter (fun p => !photo_needs_upscale p) ++ photos.filter photo_needs_upscale
    ∧ (page_composite_order photos).Perm photos := by
  have h1 : page_composite_order photos
      = photos.filter (fun p => !photo_needs_upscale p)
        ++ photos.filter photo_needs_upscale := by
    simp [page_composite_order, partition_photos, partition_photos_eq_filter photos ([], [])]
  refine ⟨h1, ?_⟩
  rw [h1]
  simpa using List.filter_append_perm (fun p => !photo_needs_upscale p) photos

/-- C1 counterexample: a page whose first photo needs upscaling and whose
second does not is composited second-then-first, not in the original
photo-list order. -/
theorem claim1_counterexample :
    page_composite_order [c1_photo_upscale, c1_photo_plain]
        = [c1_photo_plain, c1_photo_upscale]
    ∧ page_composite_order [c1_photo_upscale, c1_photo_plain]
        ≠ [c1_photo_upscale, c1_photo_plain] := by
  have hu : photo_needs_upscale c1_photo_upscale = true := by
    norm_num [photo_needs_upscale, upscale_factor_of, c1_photo_upscale, max_self]
  have hp : photo_needs_upscale c1_photo_plain = false := by
    norm_num [photo_needs_upscale, upscale_factor_of, c1_photo_plain]
  have horder : page_composite_order [c1_photo_upscale, c1_photo_plain]
      = [c1_photo_plain, c1_photo_upscale] := by
    simp [page_composite_order, partition_photos, hu, hp]
  refine ⟨horder, ?_⟩
  rw [horder]
  simp [c1_photo_upscale, c1_photo_plain]

/-- C7 amended: the forward mapping places the photo center at
x = (layoutW / 2 + center.x) * (outputW / layoutW) and
y = (layoutH / 2 - center.y) * (outputH / layoutH), and the physical page
size is the catalog mm dimensions times dpi / 25.4; for the A4 scenario
at 300 DPI with layout canvas 3048 by 4321 and a 1000 by 1000 photo at
scale 1 centered at the origin, the page is about 2480.3 by 3507.9
points, the photo footprint about 813.8 by 811.8 points (not square: the
two axes scale differently), centered at about (1240.1, 1753.9). -/
theorem claim7_amended :
    (∀ (center : ℚ × ℚ) (scale : ℚ) (osz json pdf : ℚ × ℚ),
      convert_coordinates center scale osz json pdf
        = ((json.1 / 2 + center.1) * (pdf.1 / json.1),
           (json.2 / 2 - center.2) * (pdf.2 / json.2),
           pdf.1 / json.1, pdf.2 / json.2))
    ∧ (∀ (sid : String) (dpi : ℚ) (e : String × ℚ × ℚ),
        core_mm_sizes.find? (fun x => x.1 == sid) = some e →
        get_paper_size sid dpi = some (e.2.1 / 25.4 * dpi, e.2.2 / 25.4 * dpi))
    ∧ get_paper_size "A4" 300 = some (315000 / 127, 445500 / 127)
    ∧ |(315000 : ℚ) / 127 - 2480.3| < 1 / 10
    ∧ |(445500 : ℚ) / 127 - 3507.9| < 1 / 10
    ∧ |(photo_footprint_pt (1000, 1000) 1 (3048, 4321) (315000 / 127, 445500 / 127)).1
        - 813.8| < 1 / 10
    ∧ |(photo_footprint_pt (1000, 1000) 1 (3048, 4321) (315000 / 127, 445500 / 127)).2
        - 811.8| < 1 / 10
    ∧ |(convert_coordinates (0, 0) 1 (1000, 1000) (3048, 4321)
          (315000 / 127, 445500 / 127)).1 - 1240.1| < 1 / 10
    ∧ |(convert_coordinates (0, 0) 1 (1000, 1000) (3048, 4321)
          (315000 / 127, 445500 / 127)).2.1 - 1753.9| < 1 / 10 := by
  have hfindA4 : core_mm_sizes.find? (fun x => x.1 == "A4") = some ("A4", 210, 297) := by
    decide
  refine ⟨fun center scale osz json pdf => rfl, ?_, ?_, ?_, ?_, ?_, ?_, ?_, ?_⟩
  · intro sid dpi e hfind
    simp [get_paper_size, hfind]
  · simp only [get_paper_size, hfindA4]
    norm_num
  · rw [abs_sub_lt_iff]; norm_num
  · rw [abs_sub_lt_iff]; norm_num
  · rw [abs_sub_lt_iff]; norm_num [photo_footprint_pt]
  · rw [abs_sub_lt_iff]; norm_num [photo_footprint_pt]
  · rw [abs_sub_lt_iff]; norm_num [convert_coordinates]
  · rw [abs_sub_lt_iff]; norm_num [convert_coordinates]

/-- C7 witness: the paper-size formula applied at the concrete catalog
entry for A4 at 600 DPI. -/
theorem claim7_witness :
    core_mm_sizes.find? (fun x => x.1 == "A4") = some ("A4", 210, 297)
    ∧ get_paper_size "A4" 600 = some (210 / 25.4 * 600, 297 / 25.4 * 600) := by
  have hfind : core_mm_sizes.find? (fun x => x.1 == "A4") = some ("A4", 210, 297) := by
    decide
  exact ⟨hfind, claim7_amended.2.1 "A4" 600 ("A4", 210, 297) hfind⟩

/-- C7 counterexample: in the A4 scenario the photo footprint's vertical
extent is about 811.8 points, which differs from the claimed 813.8 by
nearly 2 points, while 811.8 is within a tenth of a point. -/
theorem claim7_counterexample :
    get_paper_size "A4" 300 = some (315000 / 127, 445500 / 127)
    ∧ 1 < |(photo_footprint_pt (1000, 1000) 1 (3048, 4321)
            (315000 / 127, 445500 / 127)).2 - 813.8|
    ∧ |(photo_footprint_pt (1000, 1000) 1 (3048, 4321)
            (315000 / 127, 445500 / 127)).2 - 811.8| < 1 / 10 := by
  have hfindA4 : core_mm_sizes.find? (fun x => x.1 == "A4") = some ("A4", 210, 297) := by
    decide
  refine ⟨?_, ?_, ?_⟩
  · simp only [get_paper_size, hfindA4]
    norm_num
  · rw [lt_abs]
    right
    norm_num [photo_footprint_pt]
  · rw [abs_sub_lt_iff]; norm_num [photo_footprint_pt]

/-- C8: when a document-generation attempt aborts with the
excessive-pixel-count condition, generation restarts exactly once at
300 DPI if the current DPI is not 300, and the condition is surfaced to
the caller if the current DPI is already 300; at most two attempts are
ever made and any second attempt runs at 300 DPI. -/
theorem claim8_oversized_retry {α : Type} (render : Nat → RenderOutcome α) (dpi : Nat) :
    (render dpi = RenderOutcome.bomb → dpi ≠ 300 →
      create_pdf_with_retry render dpi = (render 300, [dpi, 300]))
    ∧ (render dpi = RenderOutcome.bomb → dpi = 300 →
      create_pdf_with_retry render dpi = (RenderOutcome.bomb, [300]))
    ∧ (render dpi ≠ RenderOutcome.bomb →
      create_pdf_with_retry render dpi = (render dpi, [dpi]))
    ∧ (create_pdf_with_retry render dpi).2.length ≤ 2
    ∧ (∀ d ∈ (create_pdf_with_retry render dpi).2.drop 1, d = 300) := by
  cases hr : render dpi with
  | bomb =>
    by_cases hd : dpi = 300
    · subst hd
      refine ⟨fun _ h => absurd rfl h, fun _ _ => ?_, fun h => absurd rfl h, ?_, ?_⟩
      · simp [create_pdf_with_retry, hr]
      · simp [create_pdf_with_retry, hr]
      · simp [create_pdf_with_retry, hr]
    · refine ⟨fun _ _ => ?_, fun _ h => absurd h hd, fun h => absurd rfl h, ?_, ?_⟩
      · simp [create_pdf_with_retry, hr, hd]
      · simp [create_pdf_with_retry, hr, hd]
      · simp [create_pdf_with_retry, hr, hd]
  | ok a =>
    refine ⟨fun h => by simp [hr] at h, fun h => by simp [hr] at h, fun _ => ?_, ?_, ?_⟩
    · simp [create_pdf_with_retry, hr]
    · simp [create_pdf_with_retry, hr]
    · simp [create_pdf_with_retry, hr]
  | fail =>
    refine ⟨fun h => by simp [hr] at h, fun h => by simp [hr] at h, fun _ => ?_, ?_, ?_⟩
    · simp [create_pdf_with_retry, hr]
    · simp [create_pdf_with_retry, hr]
    · simp [create_pdf_with_retry, hr]

/-- C8 witness: the retry statement applied to a concrete render
behavior that bombs at 600 DPI, showing the single restart at 300. -/
theorem claim8_witness :
    c8_render 600 = RenderOutcome.bomb
    ∧ create_pdf_with_retry c8_render 600 = (c8_render 300, [600, 300]) :=
  ⟨rfl, (claim8_oversized_retry c8_render 600).1 rfl (by decide)⟩

/-- C9: the module sets the decoder's pixel-count ceiling to unlimited at
import, so the excessive-pixel-count condition is never raised on any
image opened through it, every generation attempt succeeds as far as the
pixel guard is concerned, and the oversized-source recovery branch of
create_pdf is unreachable (the attempt trace never contains a retry). -/
theorem claim9_unlimited_pixels :
    (∀ pixels, image_open_check MAX_IMAGE_PIXELS pixels = RenderOutcome.ok ())
    ∧ (∀ pages, render_pages_check MAX_IMAGE_PIXELS pages = RenderOutcome.ok ())
    ∧ (∀ (pages : List Nat) (dpi : Nat),
        create_pdf_with_retry (fun _ => render_pages_check MAX_IMAGE_PIXELS pages) dpi
          = (RenderOutcome.ok (), [dpi])) := by
  have h1 : ∀ pixels, image_open_check MAX_IMAGE_PIXELS pixels = RenderOutcome.ok () :=
    fun _ => rfl
  have h2 : ∀ pages, render_pages_check MAX_IMAGE_PIXELS pages = RenderOutcome.ok () := by
    intro pages
    induction pages with
    | nil => rfl
    | cons p ps ih => simp [render_pages_check, h1 p, ih]
  exact ⟨h1, h2, fun pages dpi => by simp [create_pdf_with_retry, h2]⟩

/-- Helper: the unary formatter is injective. -/
theorem fmt_unary_injective : Function.Injective fmt_unary := by
  intro a b h
  have h2 := congrArg List.length h
  simpa [fmt_unary] using h2

/-- Helper: unary-formatter outputs never contain the underscore
separator. -/
theorem fmt_unary_no_underscore (n : Nat) : '_' ∉ fmt_unary n := by
  simp [fmt_unary, List.mem_replicate]

/-- Helper: an underscore join of underscore-free left parts determines
both parts. -/
theorem underscore_append_inj : ∀ {a c r1 r2 : PyStr}, '_' ∉ a → '_' ∉ c →
    a ++ '_' :: r1 = c ++ '_' :: r2 → a = c ∧ r1 = r2 := by
  intro a
  induction a with
  | nil =>
    intro c r1 r2 _ hc h
    cases c with
    | nil => simpa using h
    | cons y ys =>
      rw [List.nil_append, List.cons_append] at h
      injection h with h1 h2
      exact absurd (by rw [h1]; exact List.mem_cons_self _ _) hc
  | cons x xs ih =>
    intro c r1 r2 ha hc h
    cases c with
    | nil =>
      rw [List.nil_append, List.cons_append] at h
      injection h with h1 h2
      exact absurd (by rw [← h1]; exact List.mem_cons_self _ _) ha
    | cons y ys =>
      rw [List.cons_append, List.cons_append] at h
      injection h with h1 h2
      have ha2 : '_' ∉ xs := fun hm => ha (List.mem_cons_of_mem _ hm)
      have hc2 : '_' ∉ ys := fun hm => hc (List.mem_cons_of_mem _ hm)
      obtain ⟨hl, hr⟩ := ih ha2 hc2 h2
      exact ⟨by rw [h1, hl], hr⟩

/-- C6: both cache fingerprints are pure functions of the source path,
stat size, stat mtime and scale factor (plus target size for the final
tier), so identical inputs yield identical fingerprints in any two runs
or processes; assuming the digest and number-formatting primitives are
injective with separator-free output, changing the target size leaves the
model-tier fingerprint untouched (it does not take the target size at
all) while changing the final-tier fingerprint, and changing the scale
factor changes both fingerprints. -/
theorem claim6_fingerprints (md5 : PyStr → PyStr) (fmt : Nat → PyStr)
    (hmd5 : Function.Injective md5)
    (hfmt : Function.Injective fmt)
    (hfmtu : ∀ n, '_' ∉ fmt n)
    (img_path : PyStr) (st_size : Nat) (st_mtime : PyStr) :
    (∀ (p2 : PyStr) (sz2 : Nat) (mt2 : PyStr) (sf : Nat) (ts : Nat × Nat),
      img_path = p2 → st_size = sz2 → st_mtime = mt2 →
      job_fingerprints md5 fmt img_path st_size st_mtime sf ts
        = job_fingerprints md5 fmt p2 sz2 mt2 sf ts)
    ∧ (∀ (sf : Nat) (ts ts' : Nat × Nat), ts ≠ ts' →
      (job_fingerprints md5 fmt img_path st_size st_mtime sf ts).1
        = (job_fingerprints md5 fmt img_path st_size st_mtime sf ts').1
      ∧ (job_fingerprints md5 fmt img_path st_size st_mtime sf ts).2
        ≠ (job_fingerprints md5 fmt img_path st_size st_mtime sf ts').2)
    ∧ (∀ (sf sf' : Nat) (ts : Nat × Nat), sf ≠ sf' →
      (job_fingerprints md5 fmt img_path st_size st_mtime sf ts).1
        ≠ (job_fingerprints md5 fmt img_path st_size st_mtime sf' ts).1
      ∧ (job_fingerprints md5 fmt img_path st_size st_mtime sf ts).2
        ≠ (job_fingerprints md5 fmt img_path st_size st_mtime sf' ts).2) := by
  refine ⟨?_, ?_, ?_⟩
  · intro p2 sz2 mt2 sf ts hp hsz hmt
    subst hp; subst hsz; subst hmt
    rfl
  · intro sf ts ts' hne
    refine ⟨rfl, fun heq => hne ?_⟩
    have h1 := hmd5 heq
    have h2 := List.append_cancel_left h1
    injection h2 with _ h3
    have h4 := hmd5 h3
    obtain ⟨hw, hh⟩ := underscore_append_inj (hfmtu ts.1) (hfmtu ts'.1) h4
    exact Prod.ext (hfmt hw) (hfmt hh)
  · intro sf sf' ts hne
    constructor
    · intro heq
      apply hne
      have h1 := hmd5 heq
      have h2 := List.append_cancel_left h1
      injection h2 with _ h3
      exact hfmt (hmd5 h3)
    · intro heq
      apply hne
      have h1 := hmd5 heq
      have hlen : (md5 img_path ++ '_' :: md5 (stat_metadata fmt st_size st_mtime)
            ++ '_' :: md5 (fmt sf)).length
          = (md5 img_path ++ '_' :: md5 (stat_metadata fmt st_size st_mtime)
            ++ '_' :: md5 (fmt sf')).length := by
        have hL := congrArg List.length h1
        simp only [List.length_append, List.length_cons] at hL ⊢
        omega
      obtain ⟨hP, _⟩ := List.append_inj h1 hlen
      have h2 := List.append_cancel_left hP
      injection h2 with _ h3
      exact hfmt (hmd5 h3)

/-- C6 witness: the fingerprint statement applied to a concrete injective
separator-free digest and formatter, a concrete source identity, and the
scale factors 2 versus 4. -/
theorem claim6_witness :
    (job_fingerprints id fmt_unary ['p'] 1 ['5'] 2 (3, 4)).1
      ≠ (job_fingerprints id fmt_unary ['p'] 1 ['5'] 4 (3, 4)).1
    ∧ (job_fingerprints id fmt_unary ['p'] 1 ['5'] 2 (3, 4)).2
      ≠ (job_fingerprints id fmt_unary ['p'] 1 ['5'] 4 (3, 4)).2 :=
  (claim6_fingerprints id fmt_unary Function.injective_id
    fmt_unary_injective fmt_unary_no_underscore ['p'] 1 ['5']).2.2 2 4 (3, 4)
    (by decide)

/-- C5 amended: when the super-resolution invocation times out, raises,
or returns a result lacking width/height, the call falls back to the
plain upscale by the snapped factor and returns it without propagating
any failure; the fallback result is written to neither cache tier (in
particular not to the final tier), and on a shape-invalid result the
model-tier entry for this job is additionally evicted. -/
theorem claim5_amended (md5 : PyStr → PyStr) (fmt : Nat → PyStr) (st : CacheState)
    (img : PImage) (scale : Nat) (p : PyStr) (st_size : Nat) (st_mtime : PyStr)
    (ts : Nat × Nat) (outcome : AIOutcome)
    (hfmiss : cache_lookup st.finalCache
      (get_final_cache_hash md5 fmt p st_size st_mtime scale ts) = none)
    (hmmiss : cache_lookup st.modelCache
      (get_model_cache_hash md5 fmt p st_size st_mtime scale) = none)
    (hout : outcome = AIOutcome.timeout ∨ outcome = AIOutcome.raisedError
        ∨ outcome = AIOutcome.invalidResult) :
    (upscale_realesrgan md5 fmt false true outcome st img scale (some p) st_size st_mtime
        (some ts)).1 = upscale_simple img scale
    ∧ (upscale_realesrgan md5 fmt false true outcome st img scale (some p) st_size st_mtime
        (some ts)).2.finalCache = st.finalCache
    ∧ ((outcome = AIOutcome.timeout ∨ outcome = AIOutcome.raisedError) →
      (upscale_realesrgan md5 fmt false true outcome st img scale (some p) st_size st_mtime
        (some ts)).2.modelCache = st.modelCache)
    ∧ (outcome = AIOutcome.invalidResult →
      (upscale_realesrgan md5 fmt false true outcome st img scale (some p) st_size st_mtime
        (some ts)).2.modelCache
        = cache_remove st.modelCache (get_model_cache_hash md5 fmt p st_size st_mtime scale)) := by
  rcases hout with h | h | h <;> subst h <;>
    simp [upscale_realesrgan, hfmiss, hmmiss, upscale_simple]

/-- C5 witness: the fallback statement applied to a raised-error outcome
on empty caches with a concrete job. -/
theorem claim5_witness :
    (upscale_realesrgan id fmt_unary false true AIOutcome.raisedError ⟨[], []⟩
        (PImage.src "b") 4 (some ['q']) 20 ['7'] (some (5, 6))).1
      = upscale_simple (PImage.src "b") 4
    ∧ (upscale_realesrgan id fmt_unary false true AIOutcome.raisedError ⟨[], []⟩
        (PImage.src "b") 4 (some ['q']) 20 ['7'] (some (5, 6))).2.finalCache
      = (⟨[], []⟩ : CacheState).finalCache
    ∧ ((AIOutcome.raisedError = AIOutcome.timeout
        ∨ AIOutcome.raisedError = AIOutcome.raisedError) →
      (upscale_realesrgan id fmt_unary false true AIOutcome.raisedError ⟨[], []⟩
        (PImage.src "b") 4 (some ['q']) 20 ['7'] (some (5, 6))).2.modelCache
        = (⟨[], []⟩ : CacheState).modelCache)
    ∧ (AIOutcome.raisedError = AIOutcome.invalidResult →
      (upscale_realesrgan id fmt_unary false true AIOutcome.raisedError ⟨[], []⟩
        (PImage.src "b") 4 (some ['q']) 20 ['7'] (some (5, 6))).2.modelCache
        = cache_remove (⟨[], []⟩ : CacheState).modelCache
            (get_model_cache_hash id fmt_unary ['q'] 20 ['7'] 4)) :=
  claim5_amended id fmt_unary ⟨[], []⟩ (PImage.src "b") 4 ['q'] 20 ['7'] (5, 6)
    AIOutcome.raisedError rfl rfl (Or.inr (Or.inl rfl))

/-- C5 counterexample: on a timeout with empty caches the call returns
the plain fallback upscale and leaves the final tier empty, so the
fallback result is not written to the final-tier cache. -/
theorem claim5_counterexample :
    upscale_realesrgan id fmt_unary false true AIOutcome.timeout ⟨[], []⟩
        (PImage.src "a") 2 (some ['p']) 10 ['5'] (some (7, 7))
      = (PImage.simpleUpscale (PImage.src "a") 2, ⟨[], []⟩) := rfl
